import Mathlib

/-! SmartFarm node: the read / send / retry cycle of `src/main.cpp`

The firmware's `loop()` reads two sensors into the global record `sensorData`,
sends the record over ESP-NOW and, when the synchronous result of
`esp_now_send` is not `ESP_OK`, retries up to three times with a delay that
starts at 500 ms and doubles after every failed retry.

The embedding is shallow.  The vendor calls (`Serial.print`, `Serial.println`,
`delay`, `esp_now_send`) are recorded, in program order, as a list of `Event`s;
the values the environment returns (`analogRead`, `readLightLevel`, the result
of the k-th `esp_now_send` call of the cycle) are inputs of the model.  The
asynchronous callback `OnDataSent` is not part of `loop()` and is not modelled.
-/

namespace SmartFarm

/-! ## Data model -/

/-- An `esp_err_t` value: a 32-bit signed integer status code. -/
abbrev esp_err_t := Int

/-- The status codes that `main.cpp` names.  Their numeric values come from the
ESP-IDF headers `esp_err.h` and `esp_now.h`, which are not part of the
repository, so they are taken as a parameter of the model. -/
structure EspCodes where
  ESP_OK : esp_err_t
  ESP_ERR_ESPNOW_NOT_INIT : esp_err_t
  ESP_ERR_ESPNOW_ARG : esp_err_t
  ESP_ERR_ESPNOW_INTERNAL : esp_err_t
  ESP_ERR_ESPNOW_NO_MEM : esp_err_t
  ESP_ERR_ESPNOW_NOT_FOUND : esp_err_t
  ESP_ERR_ESPNOW_IF : esp_err_t
deriving DecidableEq, Repr

/-- The six `case` labels of the `switch` in `printEspError` are pairwise
different.  C++ rejects a `switch` with two equal labels, so every header the
firmware compiles against satisfies this. -/
def EspCodes.LabelsDistinct (c : EspCodes) : Prop :=
  List.Nodup [c.ESP_ERR_ESPNOW_NOT_INIT, c.ESP_ERR_ESPNOW_ARG, c.ESP_ERR_ESPNOW_INTERNAL,
    c.ESP_ERR_ESPNOW_NO_MEM, c.ESP_ERR_ESPNOW_NOT_FOUND, c.ESP_ERR_ESPNOW_IF]

instance (c : EspCodes) : Decidable c.LabelsDistinct := by
  unfold EspCodes.LabelsDistinct; infer_instance

/-- The values ESP-IDF gives the codes: `ESP_OK = 0` and
`ESP_ERR_ESPNOW_BASE = 0x3000 + 100`, then offsets 1, 2, 6, 3, 5 and 8. -/
def espIdfCodes : EspCodes :=
  { ESP_OK := 0
    ESP_ERR_ESPNOW_NOT_INIT := 12389
    ESP_ERR_ESPNOW_ARG := 12390
    ESP_ERR_ESPNOW_INTERNAL := 12394
    ESP_ERR_ESPNOW_NO_MEM := 12391
    ESP_ERR_ESPNOW_NOT_FOUND := 12393
    ESP_ERR_ESPNOW_IF := 12396 }

/-- A C `float`, kept as its IEEE-754 single-precision bit pattern.  The
firmware never computes with the value: it stores it, compares it with `-1.0`
and hands it to `Serial.println`. -/
structure Float32 where
  bits : Nat
deriving DecidableEq, Repr

/-- The bit pattern of `-1.0f`: sign 1, biased exponent 127, mantissa 0. -/
def Float32.negOne : Float32 := ⟨0xBF800000⟩

/-- The test `x == -1.0`.  The `float` is promoted to `double` exactly, so the
comparison holds for the single value `-1.0f` and for no other bit pattern
(a NaN compares unequal to everything). -/
def Float32.eqNegOne (x : Float32) : Bool := x.bits == 0xBF800000

/-- The record `struct SensorData` of `main.cpp`. -/
structure SensorData where
  soilMoisture : Int
  lightLevel : Float32
deriving DecidableEq, Repr

/-- The global `receiverMacAddress`; the program never writes to it. -/
def receiverMacAddress : List Nat := [0xE0, 0xE2, 0xE6, 0x62, 0xF5, 0x68]

/-- One call of `loop()` into the vendor libraries.  `send mac data` is
`esp_now_send(mac, (uint8_t *)&sensorData, sizeof(sensorData))` with `data`
the contents of `sensorData` at the time of the call. -/
inductive Event where
  | print (s : String)
  | println (s : String)
  | printlnInt (n : Int)
  | printlnFloat (x : Float32)
  | delay (ms : Int)
  | send (mac : List Nat) (data : SensorData)
deriving DecidableEq, Repr

/-! ## The functions of `main.cpp` -/

/-- The function `printEspError`: the `switch` over the error code, its cases
in source order. -/
def printEspError (c : EspCodes) (error : esp_err_t) : List Event :=
  if error = c.ESP_ERR_ESPNOW_NOT_INIT then [Event.println "ESP-NOW not initialized"]
  else if error = c.ESP_ERR_ESPNOW_ARG then [Event.println "Invalid argument"]
  else if error = c.ESP_ERR_ESPNOW_INTERNAL then [Event.println "Internal error"]
  else if error = c.ESP_ERR_ESPNOW_NO_MEM then [Event.println "Out of memory"]
  else if error = c.ESP_ERR_ESPNOW_NOT_FOUND then [Event.println "Peer not found"]
  else if error = c.ESP_ERR_ESPNOW_IF then [Event.println "Interface error"]
  else [Event.print "Unknown error: ", Event.printlnInt error]

/-- The function `printSensorData`. -/
def printSensorData (data : SensorData) : List Event :=
  [Event.println "Sensor Data Struct:",
   Event.print "  Soil Moisture: ",
   Event.printlnInt data.soilMoisture,
   Event.print "  Light Level: ",
   Event.printlnFloat data.lightLevel]

/-- The variables live in the retry `for` loop of `loop()`, with the calls made
so far.  `sends` counts the `esp_now_send` calls of the cycle so far, so the
next call returns `r sends`; `broke` records that the loop was left through
`break`. -/
structure RetryState where
  i : Int
  retryDelay : Int
  result : esp_err_t
  sends : Nat
  broke : Bool
  trace : List Event
deriving DecidableEq, Repr

/-- One pass through the body of the retry loop (lines 128 to 138) followed, when
the body falls through, by the `i++` of the loop header.  On success the
`break` leaves the loop before `retryDelay *= 2` and before `i++`. -/
def retryIter (c : EspCodes) (data : SensorData) (r : Nat → esp_err_t)
    (st : RetryState) : RetryState :=
  let result := r st.sends
  let tr := st.trace ++ [Event.delay st.retryDelay, Event.send receiverMacAddress data]
  if result = c.ESP_OK then
    { i := st.i
      retryDelay := st.retryDelay
      result := result
      sends := st.sends + 1
      broke := true
      trace := tr ++ [Event.println "Retry Success:"] ++ printSensorData data }
  else
    { i := st.i + 1
      retryDelay := st.retryDelay * 2
      result := result
      sends := st.sends + 1
      broke := false
      trace := tr ++ [Event.print "Retry failed, attempt #", Event.printlnInt (st.i + 1)] }

/-- The loop `for (int i = 0; i < 3; i++)`: at most `fuel` passes, each one made
only while `i < 3` and no `break` has happened. -/
def retryLoop (c : EspCodes) (data : SensorData) (r : Nat → esp_err_t) :
    Nat → RetryState → RetryState
  | 0, st => st
  | fuel + 1, st =>
    if st.i < 3 ∧ st.broke = false then retryLoop c data r fuel (retryIter c data r st)
    else st

/-- The state in which the retry loop is entered: `retryDelay = 500`, `i = 0`,
one send made (the initial one, whose result is `result`). -/
def retryInit (result : esp_err_t) (trace : List Event) : RetryState :=
  { i := 0, retryDelay := 500, result := result, sends := 1, broke := false, trace := trace }

/-- The function `loop()`.  `sensorData` is the global record as the previous
cycle left it, `soil` the value of `analogRead(FC28_PIN)`, `light` the value of
`lightMeter.readLightLevel()`, and `r k` the result of the k-th (0-based)
`esp_now_send` call of this cycle.  Returns the global record after the cycle
and the calls made, in order. -/
def loop (c : EspCodes) (sensorData : SensorData) (soil : Int) (light : Float32)
    (r : Nat → esp_err_t) : SensorData × List Event :=
  let sd1 : SensorData := { sensorData with soilMoisture := soil }
  let sd2 : SensorData := { sd1 with lightLevel := light }
  let t1 : List Event :=
    if sd2.lightLevel.eqNegOne then [Event.println "Error reading light level from BH1750"]
    else []
  let t2 := t1 ++ printSensorData sd2
  let result := r 0
  let t3 := t2 ++ [Event.send receiverMacAddress sd2]
  let t4 : List Event :=
    if result = c.ESP_OK then t3 ++ [Event.println "Data sent successfully"]
    else
      let t5 := t3 ++ [Event.println "Error sending data:"] ++ printEspError c result
      let st := retryLoop c sd2 r 3 (retryInit result t5)
      if st.result ≠ c.ESP_OK then st.trace ++ [Event.println "Retry failed, giving up"]
      else st.trace
  (sd2, t4 ++ [Event.delay 2000])

/-! ## Observations on a trace -/

/-- The `esp_now_send` calls of a trace, in order, as (address, payload). -/
def sendCalls : List Event → List (List Nat × SensorData)
  | [] => []
  | Event.send mac data :: rest => (mac, data) :: sendCalls rest
  | _ :: rest => sendCalls rest

/-- How many `esp_now_send` calls a trace has. -/
def sendCount (tr : List Event) : Nat := (sendCalls tr).length

/-- The arguments of all `delay` calls of a trace, in order. -/
def delays : List Event → List Int
  | [] => []
  | Event.delay ms :: rest => ms :: delays rest
  | _ :: rest => delays rest

/-- For each `esp_now_send` call of a trace, in order: `some ms` when the call
right before it is `delay(ms)`, `none` otherwise.  `prev` is the delay that
was the last event seen, if the last event was a delay. -/
def delaysBeforeSends (prev : Option Int) : List Event → List (Option Int)
  | [] => []
  | Event.send _ _ :: rest => prev :: delaysBeforeSends none rest
  | Event.delay ms :: rest => delaysBeforeSends (some ms) rest
  | _ :: rest => delaysBeforeSends none rest

/-- The delay that is the last event of a trace, if its last event is a delay;
`prev` when the trace is empty. -/
def lastDelay (prev : Option Int) : List Event → Option Int
  | [] => prev
  | Event.delay ms :: rest => lastDelay (some ms) rest
  | _ :: rest => lastDelay none rest

/-- The delay that immediately precedes the k-th (0-based) send call. -/
def delayBeforeSend (tr : List Event) (k : Nat) : Option Int :=
  (delaysBeforeSends none tr).getD k none

/-- The backoff delays of a trace: the delays that are immediately followed by a
send call. -/
def backoffDelays (tr : List Event) : List Int :=
  (delaysBeforeSends none tr).filterMap id

/-- The serial output of a trace: its `print` and `println` calls, in order. -/
def logOf : List Event → List Event
  | [] => []
  | Event.delay _ :: rest => logOf rest
  | Event.send _ _ :: rest => logOf rest
  | e :: rest => e :: logOf rest

/-- The events that come after the k-th (0-based) send call of a trace; empty
when the trace has no such call. -/
def afterSend : Nat → List Event → List Event
  | _, [] => []
  | 0, Event.send _ _ :: rest => rest
  | k + 1, Event.send _ _ :: rest => afterSend k rest
  | k, _ :: rest => afterSend k rest

/-- The cycle logged the give-up line. -/
def gaveUp (tr : List Event) : Prop := Event.println "Retry failed, giving up" ∈ tr

/-- The cycle logged one of the two success lines. -/
def succeeded (tr : List Event) : Prop :=
  Event.println "Data sent successfully" ∈ tr ∨ Event.println "Retry Success:" ∈ tr

instance (tr : List Event) : Decidable (gaveUp tr) := by unfold gaveUp; infer_instance

instance (tr : List Event) : Decidable (succeeded tr) := by unfold succeeded; infer_instance

/-- A stream of send results: the listed ones first, then `ESP_OK` of `c`. -/
def resultsOf (c : EspCodes) (l : List esp_err_t) : Nat → esp_err_t :=
  fun k => l.getD k c.ESP_OK

/-- The calls of lines 105 to 117: the read-error line when the light reading is
the sentinel, the record dump and the initial send. -/
def readAndFirstSend (soil : Int) (light : Float32) : List Event :=
  (if light.eqNegOne then [Event.println "Error reading light level from BH1750"] else [])
    ++ printSensorData ⟨soil, light⟩ ++ [Event.send receiverMacAddress ⟨soil, light⟩]

/-- The calls of one retry that fails, the retry loop being at counter `i` with
delay `ms`. -/
def failedRetry (data : SensorData) (i : Int) (ms : Int) : List Event :=
  [Event.delay ms, Event.send receiverMacAddress data,
   Event.print "Retry failed, attempt #", Event.printlnInt (i + 1)]

/-- The calls of one retry that succeeds, made after a delay of `ms`. -/
def successfulRetry (data : SensorData) (ms : Int) : List Event :=
  [Event.delay ms, Event.send receiverMacAddress data, Event.println "Retry Success:"]
    ++ printSensorData data

/-- What `printEspError` contributes to a cycle whose initial send returned
`e`: nothing when the send succeeded, the failure-reason line otherwise. -/
def failureReason (c : EspCodes) (e : esp_err_t) : List Event :=
  if e = c.ESP_OK then [] else printEspError c e

/-- The calls of the cycle proper: the calls of `loop()` before its last
statement, the `delay(2000)` of line 146 that sets the period between two
cycles. -/
def cycleCalls (tr : List Event) : List Event := tr.dropLast

/-! ## The shape of a cycle

The trace of `loop()` has one of five shapes, decided by which of the first
four send results is the first `ESP_OK`. -/

theorem loop_record (c : EspCodes) (s : SensorData) (soil : Int) (light : Float32)
    (r : Nat → esp_err_t) : (loop c s soil light r).1 = ⟨soil, light⟩ := rfl

/-- Every trace of `loop()` is the calls of the cycle proper followed by the
closing `delay(2000)`. -/
theorem loop_trace_closing (c : EspCodes) (s : SensorData) (soil : Int) (light : Float32)
    (r : Nat → esp_err_t) :
    (loop c s soil light r).2 = cycleCalls (loop c s soil light r).2 ++ [Event.delay 2000] := by
  simp [loop, cycleCalls]

theorem loop_trace_ok (c : EspCodes) (s : SensorData) (soil : Int) (light : Float32)
    (r : Nat → esp_err_t) (h0 : r 0 = c.ESP_OK) :
    (loop c s soil light r).2 =
      readAndFirstSend soil light ++ [Event.println "Data sent successfully", Event.delay 2000] := by
  simp [loop, readAndFirstSend, h0]

theorem loop_trace_retry1 (c : EspCodes) (s : SensorData) (soil : Int) (light : Float32)
    (r : Nat → esp_err_t) (h0 : r 0 ≠ c.ESP_OK) (h1 : r 1 = c.ESP_OK) :
    (loop c s soil light r).2 =
      readAndFirstSend soil light ++ [Event.println "Error sending data:"]
        ++ printEspError c (r 0) ++ successfulRetry ⟨soil, light⟩ 500 ++ [Event.delay 2000] := by
  simp [loop, readAndFirstSend, successfulRetry, retryLoop, retryIter, retryInit, h0, h1]

theorem loop_trace_retry2 (c : EspCodes) (s : SensorData) (soil : Int) (light : Float32)
    (r : Nat → esp_err_t) (h0 : r 0 ≠ c.ESP_OK) (h1 : r 1 ≠ c.ESP_OK) (h2 : r 2 = c.ESP_OK) :
    (loop c s soil light r).2 =
      readAndFirstSend soil light ++ [Event.println "Error sending data:"]
        ++ printEspError c (r 0) ++ failedRetry ⟨soil, light⟩ 0 500
        ++ successfulRetry ⟨soil, light⟩ 1000 ++ [Event.delay 2000] := by
  simp [loop, readAndFirstSend, successfulRetry, failedRetry, retryLoop, retryIter, retryInit,
    h0, h1, h2]

theorem loop_trace_retry3 (c : EspCodes) (s : SensorData) (soil : Int) (light : Float32)
    (r : Nat → esp_err_t) (h0 : r 0 ≠ c.ESP_OK) (h1 : r 1 ≠ c.ESP_OK) (h2 : r 2 ≠ c.ESP_OK)
    (h3 : r 3 = c.ESP_OK) :
    (loop c s soil light r).2 =
      readAndFirstSend soil light ++ [Event.println "Error sending data:"]
        ++ printEspError c (r 0) ++ failedRetry ⟨soil, light⟩ 0 500
        ++ failedRetry ⟨soil, light⟩ 1 1000
        ++ successfulRetry ⟨soil, light⟩ 2000 ++ [Event.delay 2000] := by
  simp [loop, readAndFirstSend, successfulRetry, failedRetry, retryLoop, retryIter, retryInit,
    h0, h1, h2, h3]

theorem loop_trace_giveUp (c : EspCodes) (s : SensorData) (soil : Int) (light : Float32)
    (r : Nat → esp_err_t) (h0 : r 0 ≠ c.ESP_OK) (h1 : r 1 ≠ c.ESP_OK) (h2 : r 2 ≠ c.ESP_OK)
    (h3 : r 3 ≠ c.ESP_OK) :
    (loop c s soil light r).2 =
      readAndFirstSend soil light ++ [Event.println "Error sending data:"]
        ++ printEspError c (r 0) ++ failedRetry ⟨soil, light⟩ 0 500
        ++ failedRetry ⟨soil, light⟩ 1 1000 ++ failedRetry ⟨soil, light⟩ 2 2000
        ++ [Event.println "Retry failed, giving up", Event.delay 2000] := by
  simp [loop, readAndFirstSend, failedRetry, retryLoop, retryIter, retryInit,
    h0, h1, h2, h3]

/-! ## The retry loop ends by its own condition

`loop()` runs `retryLoop` with fuel 3.  The loop stops because `i` reached 3
or because of a `break`, never because the fuel ran out, and more fuel changes
nothing. -/

theorem retryLoop_stopped (c : EspCodes) (data : SensorData) (r : Nat → esp_err_t)
    (fuel : Nat) (st : RetryState) (h : ¬ (st.i < 3 ∧ st.broke = false)) :
    retryLoop c data r fuel st = st := by
  cases fuel with
  | zero => rfl
  | succ n => simp only [retryLoop, if_neg h]

theorem retryLoop_exits (c : EspCodes) (data : SensorData) (r : Nat → esp_err_t) :
    ∀ (fuel : Nat) (st : RetryState), 3 - st.i ≤ fuel →
      ¬ ((retryLoop c data r fuel st).i < 3 ∧ (retryLoop c data r fuel st).broke = false) := by
  intro fuel
  induction fuel with
  | zero =>
    intro st hfuel
    simp only [retryLoop]
    rintro ⟨hi, -⟩
    have : (3 : Int) - st.i ≤ 0 := by exact_mod_cast hfuel
    omega
  | succ n ih =>
    intro st hfuel
    by_cases hgo : st.i < 3 ∧ st.broke = false
    · simp only [retryLoop, if_pos hgo]
      by_cases hres : r st.sends = c.ESP_OK
      · rw [retryLoop_stopped]
        · simp [retryIter, hres]
        · simp [retryIter, hres]
      · apply ih
        have h1 : (3 : Int) - st.i ≤ (n : Int) + 1 := by exact_mod_cast hfuel
        have h2 : (retryIter c data r st).i = st.i + 1 := by simp [retryIter, hres]
        rw [h2]
        omega
    · simp only [retryLoop, if_neg hgo]
      exact hgo

theorem retryLoop_fuel_enough (c : EspCodes) (data : SensorData) (r : Nat → esp_err_t)
    (e : esp_err_t) (tr : List Event) (extra : Nat) :
    retryLoop c data r (3 + extra) (retryInit e tr) = retryLoop c data r 3 (retryInit e tr)
    ∧ ¬ ((retryLoop c data r 3 (retryInit e tr)).i < 3
          ∧ (retryLoop c data r 3 (retryInit e tr)).broke = false) := by
  have hexit := retryLoop_exits c data r 3 (retryInit e tr) (by simp [retryInit])
  refine ⟨?_, hexit⟩
  have key : ∀ (a b : Nat) (st : RetryState),
      retryLoop c data r (a + b) st = retryLoop c data r b (retryLoop c data r a st) := by
    intro a
    induction a with
    | zero => intro b st; simp [retryLoop]
    | succ n ih =>
      intro b st
      rw [show n + 1 + b = (n + b) + 1 by omega]
      by_cases hgo : st.i < 3 ∧ st.broke = false
      · simp only [retryLoop, if_pos hgo]
        exact ih b _
      · simp only [retryLoop, if_neg hgo]
        exact (retryLoop_stopped c data r b st hgo).symm
  rw [key 3 extra, retryLoop_stopped c data r extra _ hexit]

/-! ## Observations on the pieces of a cycle -/

@[simp]
theorem sendCalls_append (a b : List Event) :
    sendCalls (a ++ b) = sendCalls a ++ sendCalls b := by
  induction a with
  | nil => rfl
  | cons e rest ih => cases e <;> simp [sendCalls, ih]

@[simp]
theorem delays_append (a b : List Event) : delays (a ++ b) = delays a ++ delays b := by
  induction a with
  | nil => rfl
  | cons e rest ih => cases e <;> simp [delays, ih]

@[simp]
theorem logOf_append (a b : List Event) : logOf (a ++ b) = logOf a ++ logOf b := by
  induction a with
  | nil => rfl
  | cons e rest ih => cases e <;> simp [logOf, ih]

@[simp]
theorem sendCalls_printSensorData (d : SensorData) : sendCalls (printSensorData d) = [] :=
  rfl

@[simp]
theorem delays_printSensorData (d : SensorData) : delays (printSensorData d) = [] := rfl

@[simp]
theorem logOf_printSensorData (d : SensorData) :
    logOf (printSensorData d) = printSensorData d := rfl

@[simp]
theorem sendCalls_printEspError (c : EspCodes) (e : esp_err_t) :
    sendCalls (printEspError c e) = [] := by
  unfold printEspError; split_ifs <;> rfl

@[simp]
theorem delays_printEspError (c : EspCodes) (e : esp_err_t) :
    delays (printEspError c e) = [] := by
  unfold printEspError; split_ifs <;> rfl

@[simp]
theorem logOf_printEspError (c : EspCodes) (e : esp_err_t) :
    logOf (printEspError c e) = printEspError c e := by
  unfold printEspError; split_ifs <;> rfl

@[simp]
theorem sendCalls_readAndFirstSend (soil : Int) (light : Float32) :
    sendCalls (readAndFirstSend soil light) = [(receiverMacAddress, ⟨soil, light⟩)] := by
  unfold readAndFirstSend; split_ifs <;> rfl

@[simp]
theorem delays_readAndFirstSend (soil : Int) (light : Float32) :
    delays (readAndFirstSend soil light) = [] := by
  unfold readAndFirstSend; split_ifs <;> rfl

@[simp]
theorem sendCalls_failedRetry (d : SensorData) (i ms : Int) :
    sendCalls (failedRetry d i ms) = [(receiverMacAddress, d)] := rfl

@[simp]
theorem delays_failedRetry (d : SensorData) (i ms : Int) :
    delays (failedRetry d i ms) = [ms] := rfl

@[simp]
theorem sendCalls_successfulRetry (d : SensorData) (ms : Int) :
    sendCalls (successfulRetry d ms) = [(receiverMacAddress, d)] := rfl

@[simp]
theorem delays_successfulRetry (d : SensorData) (ms : Int) :
    delays (successfulRetry d ms) = [ms] := rfl

/-- The line printed by `printEspError` is none of the three outcome lines. -/
theorem outcome_not_mem_printEspError (c : EspCodes) (e : esp_err_t) :
    Event.println "Data sent successfully" ∉ printEspError c e
    ∧ Event.println "Retry Success:" ∉ printEspError c e
    ∧ Event.println "Retry failed, giving up" ∉ printEspError c e := by
  unfold printEspError; split_ifs <;> first | decide | simp

theorem delaysBeforeSends_append (p : Option Int) (a b : List Event) :
    delaysBeforeSends p (a ++ b) = delaysBeforeSends p a ++ delaysBeforeSends (lastDelay p a) b := by
  induction a generalizing p with
  | nil => rfl
  | cons e rest ih => cases e <;> simp [delaysBeforeSends, lastDelay, ih]

theorem lastDelay_append (p : Option Int) (a b : List Event) :
    lastDelay p (a ++ b) = lastDelay (lastDelay p a) b := by
  induction a generalizing p with
  | nil => rfl
  | cons e rest ih => cases e <;> simp [lastDelay, ih]

theorem afterSend_append (k : Nat) (a b : List Event) :
    afterSend k (a ++ b) =
      if k < sendCount a then afterSend k a ++ b else afterSend (k - sendCount a) b := by
  induction a generalizing k with
  | nil => simp [sendCount, sendCalls, afterSend]
  | cons e rest ih =>
    cases e
    case send mac data =>
      cases k with
      | zero => simp [sendCount, sendCalls, afterSend]
      | succ n =>
        have := ih n
        simp only [sendCount] at this
        simp [sendCount, sendCalls, afterSend, this]
    all_goals
      have := ih k
      simp only [sendCount] at this
      simp [sendCount, sendCalls, afterSend, this]

@[simp]
theorem delaysBeforeSends_readAndFirstSend (p : Option Int) (soil : Int)
    (light : Float32) : delaysBeforeSends p (readAndFirstSend soil light) = [none] := by
  unfold readAndFirstSend; split_ifs <;> rfl

@[simp]
theorem lastDelay_readAndFirstSend (p : Option Int) (soil : Int) (light : Float32) :
    lastDelay p (readAndFirstSend soil light) = none := by
  unfold readAndFirstSend; split_ifs <;> rfl

@[simp]
theorem delaysBeforeSends_printEspError (p : Option Int) (c : EspCodes)
    (e : esp_err_t) : delaysBeforeSends p (printEspError c e) = [] := by
  unfold printEspError; split_ifs <;> rfl

@[simp]
theorem lastDelay_printEspError (p : Option Int) (c : EspCodes) (e : esp_err_t) :
    lastDelay p (printEspError c e) = none := by
  unfold printEspError; split_ifs <;> rfl

@[simp]
theorem delaysBeforeSends_failedRetry (p : Option Int) (d : SensorData) (i ms : Int) :
    delaysBeforeSends p (failedRetry d i ms) = [some ms] := rfl

@[simp]
theorem lastDelay_failedRetry (p : Option Int) (d : SensorData) (i ms : Int) :
    lastDelay p (failedRetry d i ms) = none := rfl

@[simp]
theorem delaysBeforeSends_successfulRetry (p : Option Int) (d : SensorData) (ms : Int) :
    delaysBeforeSends p (successfulRetry d ms) = [some ms] := rfl

@[simp]
theorem lastDelay_successfulRetry (p : Option Int) (d : SensorData) (ms : Int) :
    lastDelay p (successfulRetry d ms) = none := rfl

@[simp]
theorem sendCount_readAndFirstSend (soil : Int) (light : Float32) :
    sendCount (readAndFirstSend soil light) = 1 := by simp [sendCount]

@[simp]
theorem sendCount_printEspError (c : EspCodes) (e : esp_err_t) :
    sendCount (printEspError c e) = 0 := by simp [sendCount]

@[simp]
theorem sendCount_failedRetry (d : SensorData) (i ms : Int) :
    sendCount (failedRetry d i ms) = 1 := rfl

@[simp]
theorem sendCount_successfulRetry (d : SensorData) (ms : Int) :
    sendCount (successfulRetry d ms) = 1 := rfl

@[simp]
theorem sendCount_append (a b : List Event) :
    sendCount (a ++ b) = sendCount a + sendCount b := by simp [sendCount]

@[simp]
theorem afterSend_zero_readAndFirstSend (soil : Int) (light : Float32) :
    afterSend 0 (readAndFirstSend soil light) = [] := by
  unfold readAndFirstSend; split_ifs <;> rfl

@[simp]
theorem afterSend_zero_failedRetry (d : SensorData) (i ms : Int) :
    afterSend 0 (failedRetry d i ms)
      = [Event.print "Retry failed, attempt #", Event.printlnInt (i + 1)] := rfl

@[simp]
theorem afterSend_zero_successfulRetry (d : SensorData) (ms : Int) :
    afterSend 0 (successfulRetry d ms) = Event.println "Retry Success:" :: printSensorData d :=
  rfl


/-- The calls up to the initial send log none of the three outcome lines. -/
theorem outcome_not_mem_readAndFirstSend (soil : Int) (light : Float32) :
    Event.println "Data sent successfully" ∉ readAndFirstSend soil light
    ∧ Event.println "Retry Success:" ∉ readAndFirstSend soil light
    ∧ Event.println "Retry failed, giving up" ∉ readAndFirstSend soil light := by
  unfold readAndFirstSend printSensorData; split_ifs <;> simp

/-- The five shapes of a cycle, by the position of the first `ESP_OK` among the
first four send results. -/
theorem loop_trace_cases (c : EspCodes) (s : SensorData) (soil : Int) (light : Float32)
    (r : Nat → esp_err_t) :
    (r 0 = c.ESP_OK ∧ (loop c s soil light r).2 =
      readAndFirstSend soil light ++ [Event.println "Data sent successfully", Event.delay 2000])
    ∨ (r 0 ≠ c.ESP_OK ∧ r 1 = c.ESP_OK ∧ (loop c s soil light r).2 =
      readAndFirstSend soil light ++ [Event.println "Error sending data:"]
        ++ printEspError c (r 0) ++ successfulRetry ⟨soil, light⟩ 500 ++ [Event.delay 2000])
    ∨ (r 0 ≠ c.ESP_OK ∧ r 1 ≠ c.ESP_OK ∧ r 2 = c.ESP_OK ∧ (loop c s soil light r).2 =
      readAndFirstSend soil light ++ [Event.println "Error sending data:"]
        ++ printEspError c (r 0) ++ failedRetry ⟨soil, light⟩ 0 500
        ++ successfulRetry ⟨soil, light⟩ 1000 ++ [Event.delay 2000])
    ∨ (r 0 ≠ c.ESP_OK ∧ r 1 ≠ c.ESP_OK ∧ r 2 ≠ c.ESP_OK ∧ r 3 = c.ESP_OK
        ∧ (loop c s soil light r).2 =
      readAndFirstSend soil light ++ [Event.println "Error sending data:"]
        ++ printEspError c (r 0) ++ failedRetry ⟨soil, light⟩ 0 500
        ++ failedRetry ⟨soil, light⟩ 1 1000
        ++ successfulRetry ⟨soil, light⟩ 2000 ++ [Event.delay 2000])
    ∨ (r 0 ≠ c.ESP_OK ∧ r 1 ≠ c.ESP_OK ∧ r 2 ≠ c.ESP_OK ∧ r 3 ≠ c.ESP_OK
        ∧ (loop c s soil light r).2 =
      readAndFirstSend soil light ++ [Event.println "Error sending data:"]
        ++ printEspError c (r 0) ++ failedRetry ⟨soil, light⟩ 0 500
        ++ failedRetry ⟨soil, light⟩ 1 1000 ++ failedRetry ⟨soil, light⟩ 2 2000
        ++ [Event.println "Retry failed, giving up", Event.delay 2000]) := by
  by_cases h0 : r 0 = c.ESP_OK
  · exact Or.inl ⟨h0, loop_trace_ok c s soil light r h0⟩
  by_cases h1 : r 1 = c.ESP_OK
  · exact Or.inr (Or.inl ⟨h0, h1, loop_trace_retry1 c s soil light r h0 h1⟩)
  by_cases h2 : r 2 = c.ESP_OK
  · exact Or.inr (Or.inr (Or.inl ⟨h0, h1, h2, loop_trace_retry2 c s soil light r h0 h1 h2⟩))
  by_cases h3 : r 3 = c.ESP_OK
  · exact Or.inr (Or.inr (Or.inr (Or.inl
      ⟨h0, h1, h2, h3, loop_trace_retry3 c s soil light r h0 h1 h2 h3⟩)))
  · exact Or.inr (Or.inr (Or.inr (Or.inr
      ⟨h0, h1, h2, h3, loop_trace_giveUp c s soil light r h0 h1 h2 h3⟩)))

/-! ## The claims -/

/-- C1: in a cycle whose first N send calls fail and whose next send call
succeeds, N at most 3, there are N + 1 send calls, N of them after the initial
one; the initial send has no delay right before it, retry i (0-based, i < N)
has the call `delay(500 * 2^i)` right before it, and the backoff delays are the
first N of 500, 1000, 2000. -/
theorem C1_retry_count_and_backoff (c : EspCodes) (s : SensorData) (soil : Int)
    (light : Float32) (r : Nat → esp_err_t) (N : Nat) (hN : N ≤ 3)
    (hfail : ∀ k, k < N → r k ≠ c.ESP_OK) (hok : r N = c.ESP_OK) :
    sendCount (loop c s soil light r).2 = N + 1
    ∧ sendCount (afterSend 0 (loop c s soil light r).2) = N
    ∧ delayBeforeSend (loop c s soil light r).2 0 = none
    ∧ (∀ i, i < N → delayBeforeSend (loop c s soil light r).2 (i + 1) = some (500 * 2 ^ i))
    ∧ backoffDelays (loop c s soil light r).2 = List.take N [500, 1000, 2000] := by
  interval_cases N
  · rw [loop_trace_ok c s soil light r hok]
    simp [delayBeforeSend, backoffDelays, delaysBeforeSends_append, lastDelay_append,
      afterSend_append, delaysBeforeSends, lastDelay, afterSend, sendCount, sendCalls]
  · rw [loop_trace_retry1 c s soil light r (hfail 0 (by omega)) hok]
    simp [delayBeforeSend, backoffDelays, delaysBeforeSends_append, lastDelay_append,
      afterSend_append, delaysBeforeSends, lastDelay, afterSend, sendCount, sendCalls]
  · rw [loop_trace_retry2 c s soil light r (hfail 0 (by omega)) (hfail 1 (by omega)) hok]
    simp [delayBeforeSend, backoffDelays, delaysBeforeSends_append, lastDelay_append,
      afterSend_append, delaysBeforeSends, lastDelay, afterSend, sendCount, sendCalls]
    intro i hi
    interval_cases i <;> simp
  · rw [loop_trace_retry3 c s soil light r (hfail 0 (by omega)) (hfail 1 (by omega))
      (hfail 2 (by omega)) hok]
    simp [delayBeforeSend, backoffDelays, delaysBeforeSends_append, lastDelay_append,
      afterSend_append, delaysBeforeSends, lastDelay, afterSend, sendCount, sendCalls]
    intro i hi
    interval_cases i <;> simp

theorem C1_retry_count_and_backoff_witness :
    (2 ≤ 3 ∧ (∀ k, k < 2 → resultsOf espIdfCodes [12393, 12394] k ≠ espIdfCodes.ESP_OK)
      ∧ resultsOf espIdfCodes [12393, 12394] 2 = espIdfCodes.ESP_OK)
    ∧ sendCount (loop espIdfCodes ⟨0, ⟨0⟩⟩ 1800 ⟨0x42C80000⟩
        (resultsOf espIdfCodes [12393, 12394])).2 = 2 + 1
    ∧ sendCount (afterSend 0 (loop espIdfCodes ⟨0, ⟨0⟩⟩ 1800 ⟨0x42C80000⟩
        (resultsOf espIdfCodes [12393, 12394])).2) = 2
    ∧ delayBeforeSend (loop espIdfCodes ⟨0, ⟨0⟩⟩ 1800 ⟨0x42C80000⟩
        (resultsOf espIdfCodes [12393, 12394])).2 0 = none
    ∧ (∀ i, i < 2 → delayBeforeSend (loop espIdfCodes ⟨0, ⟨0⟩⟩ 1800 ⟨0x42C80000⟩
        (resultsOf espIdfCodes [12393, 12394])).2 (i + 1) = some (500 * 2 ^ i))
    ∧ backoffDelays (loop espIdfCodes ⟨0, ⟨0⟩⟩ 1800 ⟨0x42C80000⟩
        (resultsOf espIdfCodes [12393, 12394])).2 = List.take 2 [500, 1000, 2000] :=
  ⟨by decide, C1_retry_count_and_backoff espIdfCodes ⟨0, ⟨0⟩⟩ 1800 ⟨0x42C80000⟩
    (resultsOf espIdfCodes [12393, 12394]) 2 (by decide) (by decide) (by decide)⟩

/-- C2: when send attempt k of a cycle is made and returns `ESP_OK`, it is the
last send call of the cycle: the cycle has k + 1 send calls, and after that
send there is no further send, no backoff delay, and no delay at all other
than the closing `delay(2000)`. -/
theorem C2_early_success (c : EspCodes) (s : SensorData) (soil : Int) (light : Float32)
    (r : Nat → esp_err_t) (k : Nat) (hmade : k < sendCount (loop c s soil light r).2)
    (hok : r k = c.ESP_OK) :
    sendCount (loop c s soil light r).2 = k + 1
    ∧ sendCalls (afterSend k (loop c s soil light r).2) = []
    ∧ backoffDelays (afterSend k (loop c s soil light r).2) = []
    ∧ delays (afterSend k (loop c s soil light r).2) = [2000] := by
  rcases loop_trace_cases c s soil light r with
    ⟨h0, ht⟩ | ⟨h0, h1, ht⟩ | ⟨h0, h1, h2, ht⟩ | ⟨h0, h1, h2, h3, ht⟩ | ⟨h0, h1, h2, h3, ht⟩
  all_goals
    rw [ht] at hmade ⊢
    have hk : k ≤ 3 := by
      simp [sendCount, sendCalls] at hmade
      omega
    interval_cases k
    all_goals first
      | exact absurd hok h0
      | exact absurd hok h1
      | exact absurd hok h2
      | exact absurd hok h3
      | (simp [sendCount, sendCalls] at hmade; done)
      | simp [backoffDelays, delaysBeforeSends_append, lastDelay_append,
          afterSend_append, delaysBeforeSends, lastDelay, afterSend, sendCount, sendCalls,
          delays]

theorem C2_early_success_witness :
    (1 < sendCount (loop espIdfCodes ⟨0, ⟨0⟩⟩ 1800 ⟨0x42C80000⟩
        (resultsOf espIdfCodes [12393, 0, 12393])).2
      ∧ resultsOf espIdfCodes [12393, 0, 12393] 1 = espIdfCodes.ESP_OK)
    ∧ sendCount (loop espIdfCodes ⟨0, ⟨0⟩⟩ 1800 ⟨0x42C80000⟩
        (resultsOf espIdfCodes [12393, 0, 12393])).2 = 1 + 1
    ∧ sendCalls (afterSend 1 (loop espIdfCodes ⟨0, ⟨0⟩⟩ 1800 ⟨0x42C80000⟩
        (resultsOf espIdfCodes [12393, 0, 12393])).2) = []
    ∧ backoffDelays (afterSend 1 (loop espIdfCodes ⟨0, ⟨0⟩⟩ 1800 ⟨0x42C80000⟩
        (resultsOf espIdfCodes [12393, 0, 12393])).2) = []
    ∧ delays (afterSend 1 (loop espIdfCodes ⟨0, ⟨0⟩⟩ 1800 ⟨0x42C80000⟩
        (resultsOf espIdfCodes [12393, 0, 12393])).2) = [2000] :=
  ⟨by decide, C2_early_success espIdfCodes ⟨0, ⟨0⟩⟩ 1800 ⟨0x42C80000⟩
    (resultsOf espIdfCodes [12393, 0, 12393]) 1 (by decide) (by decide)⟩

/-- C3 fails as stated: the first three send calls fail (the initial attempt and
the first two retries), the third retry succeeds, and the cycle logs
"Retry Success:" and never the give-up line. -/
theorem C3_counterexample :
    (∀ k, k < 3 → resultsOf espIdfCodes [12393, 12393, 12393] k ≠ espIdfCodes.ESP_OK)
    ∧ sendCount (afterSend 0 (loop espIdfCodes ⟨0, ⟨0⟩⟩ 1800 ⟨0x42C80000⟩
        (resultsOf espIdfCodes [12393, 12393, 12393])).2) = 3
    ∧ ¬ gaveUp (loop espIdfCodes ⟨0, ⟨0⟩⟩ 1800 ⟨0x42C80000⟩
        (resultsOf espIdfCodes [12393, 12393, 12393])).2
    ∧ succeeded (loop espIdfCodes ⟨0, ⟨0⟩⟩ 1800 ⟨0x42C80000⟩
        (resultsOf espIdfCodes [12393, 12393, 12393])).2 := by
  decide

/-- C3, amended: in a cycle whose first N send calls all fail, N at least 3,
exactly 3 retries occur (4 send calls).  The cycle ends in GivenUp exactly when
the fourth send call fails as well: then the calls after that send are the
"Retry failed, attempt #" line, the give-up line and the closing delay, and no
success line is logged; so N at least 4 gives GivenUp.  When the fourth send
call succeeds, the calls after it are "Retry Success:", the record dump and
the closing delay, and the give-up line is not logged. -/
theorem C3_three_retries_then_give_up (c : EspCodes) (s : SensorData) (soil : Int)
    (light : Float32) (r : Nat → esp_err_t) (N : Nat) (hN : 3 ≤ N)
    (hfail : ∀ k, k < N → r k ≠ c.ESP_OK) :
    sendCount (loop c s soil light r).2 = 4
    ∧ sendCount (afterSend 0 (loop c s soil light r).2) = 3
    ∧ (gaveUp (loop c s soil light r).2 ↔ r 3 ≠ c.ESP_OK)
    ∧ (r 3 ≠ c.ESP_OK →
        ¬ succeeded (loop c s soil light r).2
        ∧ afterSend 3 (loop c s soil light r).2 =
            [Event.print "Retry failed, attempt #", Event.printlnInt 3,
             Event.println "Retry failed, giving up", Event.delay 2000])
    ∧ (4 ≤ N → gaveUp (loop c s soil light r).2 ∧ ¬ succeeded (loop c s soil light r).2)
    ∧ (r 3 = c.ESP_OK →
        Event.println "Retry Success:" ∈ logOf (loop c s soil light r).2
        ∧ succeeded (loop c s soil light r).2
        ∧ ¬ gaveUp (loop c s soil light r).2
        ∧ afterSend 3 (loop c s soil light r).2 =
            Event.println "Retry Success:"
              :: (printSensorData ⟨soil, light⟩ ++ [Event.delay 2000])) := by
  have h0 := hfail 0 (by omega)
  have h1 := hfail 1 (by omega)
  have h2 := hfail 2 (by omega)
  have hout := outcome_not_mem_printEspError c (r 0)
  have hpre : Event.println "Data sent successfully" ∉ readAndFirstSend soil light
      ∧ Event.println "Retry Success:" ∉ readAndFirstSend soil light
      ∧ Event.println "Retry failed, giving up" ∉ readAndFirstSend soil light :=
    outcome_not_mem_readAndFirstSend soil light
  by_cases h3 : r 3 = c.ESP_OK
  · have h4 : ¬ 4 ≤ N := fun h => hfail 3 (by omega) h3
    rw [loop_trace_retry3 c s soil light r h0 h1 h2 h3]
    simp [afterSend_append, afterSend, sendCount, sendCalls, gaveUp, succeeded, h3, h4, hout,
      hpre, failedRetry, successfulRetry, printSensorData, logOf]
  · rw [loop_trace_giveUp c s soil light r h0 h1 h2 h3]
    simp [afterSend_append, afterSend, sendCount, sendCalls, gaveUp, succeeded, h3, hout,
      hpre, failedRetry, printSensorData]

theorem C3_three_retries_then_give_up_witness :
    (3 ≤ 4 ∧ ∀ k, k < 4 → resultsOf espIdfCodes [12393, 12394, 1, 12393] k ≠ espIdfCodes.ESP_OK)
    ∧ sendCount (loop espIdfCodes ⟨0, ⟨0⟩⟩ 1800 ⟨0x42C80000⟩
        (resultsOf espIdfCodes [12393, 12394, 1, 12393])).2 = 4
    ∧ sendCount (afterSend 0 (loop espIdfCodes ⟨0, ⟨0⟩⟩ 1800 ⟨0x42C80000⟩
        (resultsOf espIdfCodes [12393, 12394, 1, 12393])).2) = 3
    ∧ (gaveUp (loop espIdfCodes ⟨0, ⟨0⟩⟩ 1800 ⟨0x42C80000⟩
        (resultsOf espIdfCodes [12393, 12394, 1, 12393])).2
        ↔ resultsOf espIdfCodes [12393, 12394, 1, 12393] 3 ≠ espIdfCodes.ESP_OK) :=
  ⟨by decide,
   (C3_three_retries_then_give_up espIdfCodes ⟨0, ⟨0⟩⟩ 1800 ⟨0x42C80000⟩
      (resultsOf espIdfCodes [12393, 12394, 1, 12393]) 4 (by decide) (by decide)).1,
   (C3_three_retries_then_give_up espIdfCodes ⟨0, ⟨0⟩⟩ 1800 ⟨0x42C80000⟩
      (resultsOf espIdfCodes [12393, 12394, 1, 12393]) 4 (by decide) (by decide)).2.1,
   (C3_three_retries_then_give_up espIdfCodes ⟨0, ⟨0⟩⟩ 1800 ⟨0x42C80000⟩
      (resultsOf espIdfCodes [12393, 12394, 1, 12393]) 4 (by decide) (by decide)).2.2.1⟩

/-- C4: whatever the two readings are, the record of the cycle holds exactly
them; the cycle makes at least one send call, and every send call of the cycle
carries that record to `receiverMacAddress`; when the light reading is `-1.0`
the cycle starts with the read-error line, then the record dump, then the
initial send with `lightLevel = -1.0`. -/
theorem C4_record_is_the_readings (c : EspCodes) (s : SensorData) (soil : Int)
    (light : Float32) (r : Nat → esp_err_t) :
    (loop c s soil light r).1.soilMoisture = soil
    ∧ (loop c s soil light r).1.lightLevel = light
    ∧ (sendCalls (loop c s soil light r).2).head? = some (receiverMacAddress, ⟨soil, light⟩)
    ∧ (∀ p, p ∈ sendCalls (loop c s soil light r).2 → p = (receiverMacAddress, ⟨soil, light⟩))
    ∧ (light = Float32.negOne → ∃ rest, (loop c s soil light r).2 =
        Event.println "Error reading light level from BH1750"
          :: (printSensorData ⟨soil, Float32.negOne⟩
            ++ Event.send receiverMacAddress ⟨soil, Float32.negOne⟩ :: rest)) := by
  refine ⟨rfl, rfl, ?_, ?_, ?_⟩
  · rcases loop_trace_cases c s soil light r with
      ⟨h0, ht⟩ | ⟨h0, h1, ht⟩ | ⟨h0, h1, h2, ht⟩ | ⟨h0, h1, h2, h3, ht⟩ | ⟨h0, h1, h2, h3, ht⟩
    all_goals
      rw [ht]
      simp [sendCalls]
  · rcases loop_trace_cases c s soil light r with
      ⟨h0, ht⟩ | ⟨h0, h1, ht⟩ | ⟨h0, h1, h2, ht⟩ | ⟨h0, h1, h2, h3, ht⟩ | ⟨h0, h1, h2, h3, ht⟩
    all_goals
      rw [ht]
      simp [sendCalls]
  · intro hl
    subst hl
    rcases loop_trace_cases c s soil Float32.negOne r with
      ⟨h0, ht⟩ | ⟨h0, h1, ht⟩ | ⟨h0, h1, h2, ht⟩ | ⟨h0, h1, h2, h3, ht⟩ | ⟨h0, h1, h2, h3, ht⟩
    all_goals
      rw [ht]
      simp [readAndFirstSend, Float32.negOne, Float32.eqNegOne]

theorem C4_record_is_the_readings_witness :
    Float32.negOne = Float32.negOne
    ∧ ∃ rest, (loop espIdfCodes ⟨7, ⟨0⟩⟩ 4095 Float32.negOne
        (resultsOf espIdfCodes [12393])).2 =
        Event.println "Error reading light level from BH1750"
          :: (printSensorData ⟨4095, Float32.negOne⟩
            ++ Event.send receiverMacAddress ⟨4095, Float32.negOne⟩ :: rest) :=
  ⟨rfl, (C4_record_is_the_readings espIdfCodes ⟨7, ⟨0⟩⟩ 4095 Float32.negOne
    (resultsOf espIdfCodes [12393])).2.2.2.2 rfl⟩

/-- C5 (scenario 3): when all four send attempts fail, whatever the error
codes, the cycle makes exactly 4 send calls; its backoff delays are 500, 1000,
2000 in that order, one right before each of attempts 2, 3 and 4 and none
before attempt 1; the only other delay is the closing `delay(2000)`; and the
last line the cycle logs is "Retry failed, giving up". -/
theorem C5_all_attempts_fail (c : EspCodes) (s : SensorData) (soil : Int) (light : Float32)
    (r : Nat → esp_err_t) (hfail : ∀ k, k < 4 → r k ≠ c.ESP_OK) :
    sendCount (loop c s soil light r).2 = 4
    ∧ backoffDelays (loop c s soil light r).2 = [500, 1000, 2000]
    ∧ delayBeforeSend (loop c s soil light r).2 0 = none
    ∧ delayBeforeSend (loop c s soil light r).2 1 = some 500
    ∧ delayBeforeSend (loop c s soil light r).2 2 = some 1000
    ∧ delayBeforeSend (loop c s soil light r).2 3 = some 2000
    ∧ delays (loop c s soil light r).2 = [500, 1000, 2000, 2000]
    ∧ (logOf (loop c s soil light r).2).getLast? = some (Event.println "Retry failed, giving up")
    ∧ (loop c s soil light r).2.getLast? = some (Event.delay 2000) := by
  rw [loop_trace_giveUp c s soil light r (hfail 0 (by omega)) (hfail 1 (by omega))
    (hfail 2 (by omega)) (hfail 3 (by omega))]
  simp [delayBeforeSend, backoffDelays, delaysBeforeSends_append, lastDelay_append,
    delaysBeforeSends, lastDelay, sendCount, sendCalls, delays, logOf, List.getLast?_append,
    List.getLast?_cons, failedRetry]

theorem C5_all_attempts_fail_witness :
    (∀ k, k < 4 → resultsOf espIdfCodes [12393, 12389, 7, 12396] k ≠ espIdfCodes.ESP_OK)
    ∧ sendCount (loop espIdfCodes ⟨0, ⟨0⟩⟩ 1800 ⟨0x42C80000⟩
        (resultsOf espIdfCodes [12393, 12389, 7, 12396])).2 = 4
    ∧ backoffDelays (loop espIdfCodes ⟨0, ⟨0⟩⟩ 1800 ⟨0x42C80000⟩
        (resultsOf espIdfCodes [12393, 12389, 7, 12396])).2 = [500, 1000, 2000] :=
  ⟨by decide,
   (C5_all_attempts_fail espIdfCodes ⟨0, ⟨0⟩⟩ 1800 ⟨0x42C80000⟩
      (resultsOf espIdfCodes [12393, 12389, 7, 12396]) (by decide)).1,
   (C5_all_attempts_fail espIdfCodes ⟨0, ⟨0⟩⟩ 1800 ⟨0x42C80000⟩
      (resultsOf espIdfCodes [12393, 12389, 7, 12396]) (by decide)).2.1⟩

/-- C7 (scenario 1): when the initial send returns `ESP_OK`, exactly one send
call is made, the log shows "Data sent successfully", and the cycle invokes no
delay: no delay comes before the send, between the send and the success line,
or anywhere in the calls of the cycle proper, and there is no backoff delay.
The one `delay` call of `loop()` is its closing statement `delay(2000)`, the
period between two cycles, made after the success line. -/
theorem C7_initial_success (c : EspCodes) (s : SensorData) (soil : Int) (light : Float32)
    (r : Nat → esp_err_t) (h0 : r 0 = c.ESP_OK) :
    sendCount (loop c s soil light r).2 = 1
    ∧ Event.println "Data sent successfully" ∈ logOf (loop c s soil light r).2
    ∧ delays (cycleCalls (loop c s soil light r).2) = []
    ∧ sendCount (cycleCalls (loop c s soil light r).2) = 1
    ∧ Event.println "Data sent successfully" ∈ cycleCalls (loop c s soil light r).2
    ∧ backoffDelays (loop c s soil light r).2 = []
    ∧ (loop c s soil light r).2 = cycleCalls (loop c s soil light r).2 ++ [Event.delay 2000]
    ∧ afterSend 0 (loop c s soil light r).2
        = [Event.println "Data sent successfully", Event.delay 2000] := by
  have hdrop : cycleCalls (readAndFirstSend soil light
        ++ [Event.println "Data sent successfully", Event.delay 2000])
      = readAndFirstSend soil light ++ [Event.println "Data sent successfully"] := by
    unfold cycleCalls
    rw [show readAndFirstSend soil light
          ++ [Event.println "Data sent successfully", Event.delay 2000]
        = (readAndFirstSend soil light ++ [Event.println "Data sent successfully"])
          ++ [Event.delay 2000] by simp]
    exact List.dropLast_concat
  rw [loop_trace_ok c s soil light r h0, hdrop]
  simp [backoffDelays, delaysBeforeSends_append, lastDelay_append, afterSend_append,
    delaysBeforeSends, lastDelay, sendCount, sendCalls, delays, logOf]

theorem C7_initial_success_witness :
    resultsOf espIdfCodes [] 0 = espIdfCodes.ESP_OK
    ∧ sendCount (loop espIdfCodes ⟨0, ⟨0⟩⟩ 1800 ⟨0x42C80000⟩ (resultsOf espIdfCodes [])).2 = 1
    ∧ delays (cycleCalls
        (loop espIdfCodes ⟨0, ⟨0⟩⟩ 1800 ⟨0x42C80000⟩ (resultsOf espIdfCodes [])).2) = [] :=
  ⟨by decide,
   (C7_initial_success espIdfCodes ⟨0, ⟨0⟩⟩ 1800 ⟨0x42C80000⟩ (resultsOf espIdfCodes [])
      (by decide)).1,
   (C7_initial_success espIdfCodes ⟨0, ⟨0⟩⟩ 1800 ⟨0x42C80000⟩ (resultsOf espIdfCodes [])
      (by decide)).2.2.1⟩

/-- C8: a cycle does not depend on the state of `sensorData` it starts from:
from any two starting records, the same readings and the same send results
give the same trace and the same final record, in particular from the records
left by two arbitrary earlier cycles (one that gave up, one that succeeded);
and in every cycle that needs a retry the first backoff delay is 500 ms. -/
theorem C8_cycle_independent_of_previous (c : EspCodes) (s1 s2 : SensorData) (soil : Int)
    (light : Float32) (r : Nat → esp_err_t) :
    loop c s1 soil light r = loop c s2 soil light r
    ∧ (∀ (soilA soilB : Int) (lightA lightB : Float32) (rA rB : Nat → esp_err_t),
        loop c (loop c s1 soilA lightA rA).1 soil light r
          = loop c (loop c s2 soilB lightB rB).1 soil light r)
    ∧ (r 0 ≠ c.ESP_OK → (backoffDelays (loop c s1 soil light r).2).head? = some 500) := by
  refine ⟨rfl, fun _ _ _ _ _ _ => rfl, ?_⟩
  intro h0
  rcases loop_trace_cases c s1 soil light r with
    ⟨h, -⟩ | ⟨-, -, ht⟩ | ⟨-, -, -, ht⟩ | ⟨-, -, -, -, ht⟩ | ⟨-, -, -, -, ht⟩
  · exact absurd h h0
  all_goals
    rw [ht]
    simp [backoffDelays, delaysBeforeSends_append, lastDelay_append, delaysBeforeSends, lastDelay]

theorem C8_cycle_independent_of_previous_witness :
    resultsOf espIdfCodes [12393, 12393] 0 ≠ espIdfCodes.ESP_OK
    ∧ (backoffDelays (loop espIdfCodes
        (loop espIdfCodes ⟨0, ⟨0⟩⟩ 1800 ⟨0x42C80000⟩
          (resultsOf espIdfCodes [12393, 12393, 12393, 12393])).1
        2047 Float32.negOne (resultsOf espIdfCodes [12393, 12393])).2).head? = some 500 :=
  ⟨by decide,
   (C8_cycle_independent_of_previous espIdfCodes
      (loop espIdfCodes ⟨0, ⟨0⟩⟩ 1800 ⟨0x42C80000⟩
        (resultsOf espIdfCodes [12393, 12393, 12393, 12393])).1
      ⟨0, ⟨0⟩⟩ 2047 Float32.negOne (resultsOf espIdfCodes [12393, 12393])).2.2 (by decide)⟩

/-- C9 fails as stated: the initial send fails, retry 1 succeeds, and once
retry 1 has completed `retryDelay` is still 500, not 500 * 2^1; it is still
500 when the loop is over. -/
theorem C9_counterexample :
    resultsOf espIdfCodes [12393] 0 ≠ espIdfCodes.ESP_OK
    ∧ resultsOf espIdfCodes [12393] 1 = espIdfCodes.ESP_OK
    ∧ (retryLoop espIdfCodes ⟨1800, ⟨0x42C80000⟩⟩ (resultsOf espIdfCodes [12393]) 1
        (retryInit 12393 [])).retryDelay = 500
    ∧ (retryLoop espIdfCodes ⟨1800, ⟨0x42C80000⟩⟩ (resultsOf espIdfCodes [12393]) 1
        (retryInit 12393 [])).retryDelay ≠ 500 * 2 ^ 1
    ∧ (retryLoop espIdfCodes ⟨1800, ⟨0x42C80000⟩⟩ (resultsOf espIdfCodes [12393]) 3
        (retryInit 12393 [])).retryDelay = 500 := by
  decide

/-- C9, amended: let retry attempt k (k in 1..3) be made, that is, let the
send calls 0 to k-1 have failed.  On entry to attempt k `retryDelay` is
500 * 2^(k-1), and the attempt makes the call `delay(500 * 2^(k-1))` and then
the send: these two calls are what pass k adds first to the calls made so
far, and in the trace of `loop()` that delay is the call right before send k.
When attempt k fails, `retryDelay` is doubled and is 500 * 2^k once the
attempt has completed, also for k = 3.  When attempt k succeeds, the `break`
leaves the loop before the doubling: `retryDelay` stays 500 * 2^(k-1) and the
loop is over. -/
theorem C9_retryDelay_after_attempt (c : EspCodes) (s : SensorData) (data : SensorData)
    (r : Nat → esp_err_t) (tr : List Event) (k : Nat) (hk1 : 1 ≤ k) (hk3 : k ≤ 3)
    (hfail : ∀ j, j < k → r j ≠ c.ESP_OK) :
    (retryLoop c data r (k - 1) (retryInit (r 0) tr)).retryDelay = 500 * 2 ^ (k - 1)
    ∧ (retryLoop c data r k (retryInit (r 0) tr)).trace =
        (retryLoop c data r (k - 1) (retryInit (r 0) tr)).trace
          ++ [Event.delay (500 * 2 ^ (k - 1)), Event.send receiverMacAddress data]
          ++ (if r k = c.ESP_OK then Event.println "Retry Success:" :: printSensorData data
              else [Event.print "Retry failed, attempt #", Event.printlnInt k])
    ∧ delayBeforeSend (loop c s data.soilMoisture data.lightLevel r).2 k
        = some (500 * 2 ^ (k - 1))
    ∧ (r k ≠ c.ESP_OK →
        (retryLoop c data r k (retryInit (r 0) tr)).retryDelay = 500 * 2 ^ k
        ∧ (retryLoop c data r k (retryInit (r 0) tr)).broke = false)
    ∧ (r k = c.ESP_OK →
        (retryLoop c data r k (retryInit (r 0) tr)).retryDelay = 500 * 2 ^ (k - 1)
        ∧ (retryLoop c data r k (retryInit (r 0) tr)).broke = true
        ∧ retryLoop c data r 3 (retryInit (r 0) tr) = retryLoop c data r k (retryInit (r 0) tr)) := by
  have hloop : delayBeforeSend (loop c s data.soilMoisture data.lightLevel r).2 k
      = some (500 * 2 ^ (k - 1)) := by
    have h0 := hfail 0 (by omega)
    rcases loop_trace_cases c s data.soilMoisture data.lightLevel r with
      ⟨g0, -⟩ | ⟨-, g1, ht⟩ | ⟨-, g1, g2, ht⟩ | ⟨-, g1, g2, g3, ht⟩ | ⟨-, g1, g2, g3, ht⟩
    · exact absurd g0 h0
    all_goals
      rw [ht]
      interval_cases k
      all_goals first
        | exact absurd g1 (hfail 1 (by omega))
        | exact absurd g2 (hfail 2 (by omega))
        | simp [delayBeforeSend, delaysBeforeSends_append, lastDelay_append, delaysBeforeSends,
            lastDelay]
  refine ⟨?_, ?_, hloop, ?_, ?_⟩
  · interval_cases k
    · simp [retryLoop, retryInit]
    · simp [retryLoop, retryIter, retryInit, hfail 1 (by omega)]
    · simp [retryLoop, retryIter, retryInit, hfail 1 (by omega), hfail 2 (by omega)]
  · interval_cases k
    · by_cases h1 : r 1 = c.ESP_OK <;> simp [retryLoop, retryIter, retryInit, h1]
    · by_cases h2 : r 2 = c.ESP_OK <;>
        simp [retryLoop, retryIter, retryInit, hfail 1 (by omega), h2]
    · by_cases h3 : r 3 = c.ESP_OK <;>
        simp [retryLoop, retryIter, retryInit, hfail 1 (by omega), hfail 2 (by omega), h3]
  · intro hk
    interval_cases k
    · simp [retryLoop, retryIter, retryInit, hk]
    · simp [retryLoop, retryIter, retryInit, hfail 1 (by omega), hk]
    · simp [retryLoop, retryIter, retryInit, hfail 1 (by omega), hfail 2 (by omega), hk]
  · intro hk
    interval_cases k
    · simp [retryLoop, retryIter, retryInit, hk]
    · simp [retryLoop, retryIter, retryInit, hfail 1 (by omega), hk]
    · simp [retryLoop, retryIter, retryInit, hfail 1 (by omega), hfail 2 (by omega), hk]

theorem C9_retryDelay_after_attempt_witness :
    (1 ≤ 2 ∧ 2 ≤ 3 ∧ ∀ j, j < 2 → resultsOf espIdfCodes [12393, 12393] j ≠ espIdfCodes.ESP_OK)
    ∧ (retryLoop espIdfCodes ⟨1800, ⟨0x42C80000⟩⟩ (resultsOf espIdfCodes [12393, 12393]) (2 - 1)
        (retryInit (resultsOf espIdfCodes [12393, 12393] 0) [])).retryDelay = 500 * 2 ^ (2 - 1)
    ∧ delayBeforeSend (loop espIdfCodes ⟨0, ⟨0⟩⟩ 1800 ⟨0x42C80000⟩
        (resultsOf espIdfCodes [12393, 12393])).2 2 = some (500 * 2 ^ (2 - 1)) :=
  ⟨by decide,
   (C9_retryDelay_after_attempt espIdfCodes ⟨0, ⟨0⟩⟩ ⟨1800, ⟨0x42C80000⟩⟩
      (resultsOf espIdfCodes [12393, 12393]) [] 2 (by decide) (by decide) (by decide)).1,
   (C9_retryDelay_after_attempt espIdfCodes ⟨0, ⟨0⟩⟩ ⟨1800, ⟨0x42C80000⟩⟩
      (resultsOf espIdfCodes [12393, 12393]) [] 2 (by decide) (by decide) (by decide)).2.2.1⟩

/-- C10: two cycles with the same readings whose send results agree, position
by position, on being `ESP_OK` or not (the failing codes are arbitrary) make
the same send calls with the same payload, invoke the same delays, reach the
same outcome and leave the same record; their traces are equal except for the
lines `printEspError` prints for the result of the initial send. -/
theorem C10_failure_kinds_alike (c : EspCodes) (s : SensorData) (soil : Int) (light : Float32)
    (r1 r2 : Nat → esp_err_t) (hagree : ∀ k, r1 k = c.ESP_OK ↔ r2 k = c.ESP_OK) :
    sendCalls (loop c s soil light r1).2 = sendCalls (loop c s soil light r2).2
    ∧ delays (loop c s soil light r1).2 = delays (loop c s soil light r2).2
    ∧ (succeeded (loop c s soil light r1).2 ↔ succeeded (loop c s soil light r2).2)
    ∧ (gaveUp (loop c s soil light r1).2 ↔ gaveUp (loop c s soil light r2).2)
    ∧ (loop c s soil light r1).1 = (loop c s soil light r2).1
    ∧ ∃ pre post,
        (loop c s soil light r1).2 = pre ++ failureReason c (r1 0) ++ post
        ∧ (loop c s soil light r2).2 = pre ++ failureReason c (r2 0) ++ post := by
  have hout1 := outcome_not_mem_printEspError c (r1 0)
  have hout2 := outcome_not_mem_printEspError c (r2 0)
  rcases loop_trace_cases c s soil light r1 with
    ⟨h0, ht⟩ | ⟨h0, h1, ht⟩ | ⟨h0, h1, h2, ht⟩ | ⟨h0, h1, h2, h3, ht⟩ | ⟨h0, h1, h2, h3, ht⟩
  · have g0 := (hagree 0).1 h0
    rw [ht, loop_trace_ok c s soil light r2 g0]
    refine ⟨rfl, rfl, Iff.rfl, Iff.rfl, rfl, readAndFirstSend soil light,
      [Event.println "Data sent successfully", Event.delay 2000], ?_, ?_⟩ <;>
      simp [failureReason, h0, g0]
  · have g0 := mt (hagree 0).2 h0
    have g1 := (hagree 1).1 h1
    rw [ht, loop_trace_retry1 c s soil light r2 g0 g1]
    refine ⟨by simp [sendCalls], by simp [delays], ?_, ?_, rfl,
      readAndFirstSend soil light ++ [Event.println "Error sending data:"],
      successfulRetry ⟨soil, light⟩ 500 ++ [Event.delay 2000], ?_, ?_⟩
    · simp [succeeded, hout1, hout2]
    · simp [gaveUp, hout1, hout2]
    · simp [failureReason, h0]
    · simp [failureReason, g0]
  · have g0 := mt (hagree 0).2 h0
    have g1 := mt (hagree 1).2 h1
    have g2 := (hagree 2).1 h2
    rw [ht, loop_trace_retry2 c s soil light r2 g0 g1 g2]
    refine ⟨by simp [sendCalls], by simp [delays], ?_, ?_, rfl,
      readAndFirstSend soil light ++ [Event.println "Error sending data:"],
      failedRetry ⟨soil, light⟩ 0 500 ++ successfulRetry ⟨soil, light⟩ 1000
        ++ [Event.delay 2000], ?_, ?_⟩
    · simp [succeeded, hout1, hout2]
    · simp [gaveUp, hout1, hout2]
    · simp [failureReason, h0]
    · simp [failureReason, g0]
  · have g0 := mt (hagree 0).2 h0
    have g1 := mt (hagree 1).2 h1
    have g2 := mt (hagree 2).2 h2
    have g3 := (hagree 3).1 h3
    rw [ht, loop_trace_retry3 c s soil light r2 g0 g1 g2 g3]
    refine ⟨by simp [sendCalls], by simp [delays], ?_, ?_, rfl,
      readAndFirstSend soil light ++ [Event.println "Error sending data:"],
      failedRetry ⟨soil, light⟩ 0 500 ++ failedRetry ⟨soil, light⟩ 1 1000
        ++ successfulRetry ⟨soil, light⟩ 2000 ++ [Event.delay 2000], ?_, ?_⟩
    · simp [succeeded, hout1, hout2]
    · simp [gaveUp, hout1, hout2]
    · simp [failureReason, h0]
    · simp [failureReason, g0]
  · have g0 := mt (hagree 0).2 h0
    have g1 := mt (hagree 1).2 h1
    have g2 := mt (hagree 2).2 h2
    have g3 := mt (hagree 3).2 h3
    rw [ht, loop_trace_giveUp c s soil light r2 g0 g1 g2 g3]
    refine ⟨by simp [sendCalls], by simp [delays], ?_, ?_, rfl,
      readAndFirstSend soil light ++ [Event.println "Error sending data:"],
      failedRetry ⟨soil, light⟩ 0 500 ++ failedRetry ⟨soil, light⟩ 1 1000
        ++ failedRetry ⟨soil, light⟩ 2 2000
        ++ [Event.println "Retry failed, giving up", Event.delay 2000], ?_, ?_⟩
    · simp [succeeded, hout1, hout2]
    · simp [gaveUp, hout1, hout2]
    · simp [failureReason, h0]
    · simp [failureReason, g0]

theorem C10_failure_kinds_alike_witness :
    (∀ k, resultsOf espIdfCodes [12393, 12394] k = espIdfCodes.ESP_OK
        ↔ resultsOf espIdfCodes [-1, 12389] k = espIdfCodes.ESP_OK)
    ∧ sendCalls (loop espIdfCodes ⟨0, ⟨0⟩⟩ 1800 ⟨0x42C80000⟩
        (resultsOf espIdfCodes [12393, 12394])).2
      = sendCalls (loop espIdfCodes ⟨0, ⟨0⟩⟩ 1800 ⟨0x42C80000⟩
        (resultsOf espIdfCodes [-1, 12389])).2
    ∧ delays (loop espIdfCodes ⟨0, ⟨0⟩⟩ 1800 ⟨0x42C80000⟩
        (resultsOf espIdfCodes [12393, 12394])).2
      = delays (loop espIdfCodes ⟨0, ⟨0⟩⟩ 1800 ⟨0x42C80000⟩
        (resultsOf espIdfCodes [-1, 12389])).2
    ∧ (loop espIdfCodes ⟨0, ⟨0⟩⟩ 1800 ⟨0x42C80000⟩ (resultsOf espIdfCodes [12393, 12394])).2
      ≠ (loop espIdfCodes ⟨0, ⟨0⟩⟩ 1800 ⟨0x42C80000⟩ (resultsOf espIdfCodes [-1, 12389])).2 :=
  have hagree : ∀ k, resultsOf espIdfCodes [12393, 12394] k = espIdfCodes.ESP_OK
      ↔ resultsOf espIdfCodes [-1, 12389] k = espIdfCodes.ESP_OK := by
    intro k
    rcases k with _ | _ | k
    · decide
    · decide
    · simp [resultsOf]
  ⟨hagree,
   (C10_failure_kinds_alike espIdfCodes ⟨0, ⟨0⟩⟩ 1800 ⟨0x42C80000⟩
      (resultsOf espIdfCodes [12393, 12394]) (resultsOf espIdfCodes [-1, 12389]) hagree).1,
   (C10_failure_kinds_alike espIdfCodes ⟨0, ⟨0⟩⟩ 1800 ⟨0x42C80000⟩
      (resultsOf espIdfCodes [12393, 12394]) (resultsOf espIdfCodes [-1, 12389]) hagree).2.1,
   by decide⟩


end SmartFarm
